import Mathlib

/-
Verification of `nanobot/providers/gemini_cli_auth.py`: a shallow embedding of
`discover_project`, `enable_vertex_api` and `refresh_access_token`.

Network I/O is modelled by an oracle (`DiscoverWorld`, `World`) that fixes the
outcome of each HTTP call the code makes: either the call raises (transport
error, timeout, JSON decoding failure) or it completes with a status code and
the parsed fields the code reads.  Each function additionally returns the
ordered trace of outward requests it issued, so that statements about which
requests are (not) sent can be made.
-/

namespace GeminiCliAuth

/-- Python truthiness of an optional string: `None` and `""` are falsy. -/
def truthyS : Option String → Bool
  | none => false
  | some s => s ≠ ""

/-- Python `a or b` on optional strings (`env_project` computation, line 81). -/
def orS (a b : Option String) : Option String :=
  if truthyS a then a else b

/-- Python `o or d` where the fallback `d` is a plain string
(`tier.get("id") or "free-tier"`, line 141). -/
def orStr (o : Option String) (d : String) : String :=
  if truthyS o then o.getD d else d

/-- Outcome of one HTTP call made through `httpx`: either the call raises
(transport error, timeout, or a failure while decoding the body), or it
completes with a status code and the parsed fields the code reads. -/
inductive HttpResult (α : Type) where
  | raise : HttpResult α
  | resp (status : Nat) (body : α) : HttpResult α
deriving DecidableEq

/-- One entry of `allowedTiers`, as read by the code:
truthiness of `t.get("isDefault")` and the value of `t.get("id")`
(absent, or a string that may be empty). -/
structure Tier where
  isDefault : Bool
  id : Option String
deriving DecidableEq

/-- The `cloudaicompanionProject` field of a loadCodeAssist response:
absent, a plain string, or an object whose `id` key is read (lines 124-127). -/
inductive ProjField where
  | absent : ProjField
  | pstr (s : String) : ProjField
  | pobj (id : Option String) : ProjField
deriving DecidableEq

/-- The fields of the parsed loadCodeAssist response that `discover_project`
reads: truthiness of `data.get("currentTier")`, the `cloudaicompanionProject`
field, and `data.get("allowedTiers", [])` (an absent key is the empty list). -/
structure LoadData where
  currentTier : Bool
  proj : ProjField
  allowedTiers : List Tier
deriving DecidableEq

/-- The `data = {}` record used when the LOAD status is not 200 (line 105). -/
def LoadData.empty : LoadData :=
  { currentTier := false, proj := ProjField.absent, allowedTiers := [] }

/-- An operation record, as read by the code: truthiness of `lro.get("done")`,
the `lro.get("name")` field, and
`lro.get("response", {}).get("cloudaicompanionProject", {}).get("id")`. -/
structure LRO where
  done : Bool
  name : Option String
  responseProjectId : Option String
deriving DecidableEq

/-- The body of the onboardUser POST, as assembled on lines 145-155: the chosen
`tierId` and the optional `cloudaicompanionProject` hint (carried, together
with `metadata.duetProject`, only when the tier is not `free-tier` and an
environment hint exists). -/
structure OnboardBody where
  tierId : String
  cloudaicompanionProject : Option String
deriving DecidableEq

/-- One outward step of the flow, recorded in order of emission. -/
inductive Request where
  | credLookup : Request
  | tokenPost : Request
  | loadPost (hint : Option String) : Request
  | onboardPost (body : OnboardBody) : Request
  | pollGet (name : String) : Request
  | enablePost (projectId : String) : Request
deriving DecidableEq

/-- The oracle for one run of `discover_project`: the two environment
variables and the outcome of each HTTP call (`pollResult` is indexed by the
polling round). -/
structure DiscoverWorld where
  envGoogleCloudProject : Option String
  envGoogleCloudProjectId : Option String
  loadResult : HttpResult LoadData
  onboardResult : HttpResult LRO
  pollResult : Nat → HttpResult LRO

/-- `env_project = os.environ.get("GOOGLE_CLOUD_PROJECT") or
os.environ.get("GOOGLE_CLOUD_PROJECT_ID")` (line 81). -/
def envProjectOf (w : DiscoverWorld) : Option String :=
  orS w.envGoogleCloudProject w.envGoogleCloudProjectId

/-- The tier id chosen on lines 140-141:
`tier = next((t for t in allowed if t.get("isDefault")), None) or
{"id": "legacy-tier"}` followed by `tier_id = tier.get("id") or "free-tier"`. -/
def tierIdOf (allowed : List Tier) : String :=
  let tier : Tier :=
    match allowed.find? (fun t => t.isDefault) with
    | some t => t
    | none => { isDefault := false, id := some "legacy-tier" }
  orStr tier.id "free-tier"

/-- The onboardUser body assembled on lines 145-155. -/
def mkOnboardBody (envProject : Option String) (allowed : List Tier) :
    OnboardBody :=
  { tierId := tierIdOf allowed,
    cloudaicompanionProject :=
      if tierIdOf allowed ≠ "free-tier" ∧ truthyS envProject then envProject
      else none }

/-- The polling loop of lines 163-172: up to 24 rounds; each round first checks
`lro.get("done")` and `lro.get("name")`, then waits and re-fetches the
operation; a non-200 poll response keeps the previous `lro`.  Returns
`Except.error ()` when a poll GET raises (the exception propagates to the
top-level handler of `discover_project`), together with the trace of poll
requests issued. -/
def pollLoop (w : DiscoverWorld) :
    Nat → Nat → LRO → Except Unit LRO × List Request
  | 0, _, lro => (Except.ok lro, [])
  | Nat.succ fuel, round, lro =>
    if lro.done then (Except.ok lro, [])
    else if truthyS lro.name = false then (Except.ok lro, [])
    else
      match w.pollResult round with
      | HttpResult.raise => (Except.error (), [Request.pollGet (lro.name.getD "")])
      | HttpResult.resp status body =>
        let lro2 := if status = 200 then body else lro
        let rest := pollLoop w fuel (round + 1) lro2
        (rest.1, Request.pollGet (lro.name.getD "") :: rest.2)

/-- Lines 139-181: tier selection, the onboardUser POST (whose non-2xx status
raises via `raise_for_status`), the polling loop, and the final extraction
`pid = lro...id; final_pid = pid or env_project; return final_pid if truthy
else env_project`. -/
def onboardPart (w : DiscoverWorld) (envProject : Option String)
    (data : LoadData) : Except Unit (Option String) × List Request :=
  let body := mkOnboardBody envProject data.allowedTiers
  match w.onboardResult with
  | HttpResult.raise => (Except.error (), [Request.onboardPost body])
  | HttpResult.resp status lro0 =>
    if 400 ≤ status then (Except.error (), [Request.onboardPost body])
    else
      let polled := pollLoop w 24 0 lro0
      match polled.1 with
      | Except.error _ => (Except.error (), Request.onboardPost body :: polled.2)
      | Except.ok lro =>
        let pid := lro.responseProjectId
        let finalPid := if truthyS pid then pid else envProject
        if truthyS finalPid then
          (Except.ok finalPid, Request.onboardPost body :: polled.2)
        else
          (Except.ok envProject, Request.onboardPost body :: polled.2)

/-- The body of the `try:` block of `discover_project` (lines 92-181): the
loadCodeAssist POST (a non-200 status leaves `data = {}`), the
`currentTier`-gated project extraction of lines 123-135, and otherwise the
onboarding part.  `Except.error ()` marks an exception reaching the top-level
handler. -/
def discoverTry (w : DiscoverWorld) : Except Unit (Option String) × List Request :=
  let envProject := envProjectOf w
  let loadReq := Request.loadPost envProject
  match w.loadResult with
  | HttpResult.raise => (Except.error (), [loadReq])
  | HttpResult.resp status bodyData =>
    let data := if status = 200 then bodyData else LoadData.empty
    if data.currentTier then
      let finalPid : Option String :=
        match data.proj with
        | ProjField.pstr s =>
          if s ≠ "" then some s
          else if truthyS envProject then envProject else none
        | ProjField.pobj oid =>
          if truthyS oid then oid
          else if truthyS envProject then envProject else none
        | ProjField.absent =>
          if truthyS envProject then envProject else none
      if truthyS finalPid then (Except.ok finalPid, [loadReq])
      else
        let rest := onboardPart w envProject data
        (rest.1, loadReq :: rest.2)
    else
      let rest := onboardPart w envProject data
      (rest.1, loadReq :: rest.2)

/-- `discover_project` (lines 76-185): the try-body wrapped in the top-level
`except Exception` handler, which converts any raise into `env_project`.
Returns the resolved project (possibly none) and the request trace. -/
def discover_project (w : DiscoverWorld) : Option String × List Request :=
  let r := discoverTry w
  match r.1 with
  | Except.ok v => (v, r.2)
  | Except.error _ => (envProjectOf w, r.2)

/-- The operation record returned by the service-enable endpoint, as read by
`enable_vertex_api`: truthiness of `lro.get("done")`. -/
structure EnableLro where
  done : Bool
deriving DecidableEq

/-- The distinguishable ways `enable_vertex_api` (lines 187-212) returns; the
function is total: every branch, including a raised transport error, is
handled inside it and none re-raises to the caller. -/
inductive EnableOutcome where
  | opComplete : EnableOutcome
  | waitedForLro : EnableOutcome
  | permissionDenied : EnableOutcome
  | otherFailure : EnableOutcome
  | exceptionCaught : EnableOutcome
deriving DecidableEq

/-- `enable_vertex_api` (lines 187-212), as a function of the outcome of its
single POST. -/
def enable_vertex_api (enableResult : HttpResult EnableLro) : EnableOutcome :=
  match enableResult with
  | HttpResult.raise => EnableOutcome.exceptionCaught
  | HttpResult.resp status lro =>
    if status = 200 then
      if lro.done then EnableOutcome.opComplete else EnableOutcome.waitedForLro
    else if status = 403 then EnableOutcome.permissionDenied
    else EnableOutcome.otherFailure

/-- The token endpoint response body, as read by the code:
`tokens.get("access_token")`. -/
structure TokenBody where
  access_token : Option String
deriving DecidableEq

/-- `extract_antigravity_credentials` (lines 54-72): decodes two fixed base64
constants; it performs no I/O and never fails, so the `except` fallback to
`extract_credentials` on line 226 is unreachable. -/
def extract_antigravity_credentials : String × String :=
  ("1071006060591-tmhssin2h21lcre235vtolojh4g403ep.apps.googleusercontent.com",
   "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")

/-- The build-time default project id of line 246. -/
def DEFAULT_PROJECT_ID : String := "rising-fact-p41fc"

/-- The failures `refresh_access_token` can raise to its caller. -/
inductive RefreshError where
  | invalidArgument : RefreshError
  | transportError : RefreshError
  | upstreamError (status : Nat) : RefreshError
  | protocolError : RefreshError
deriving DecidableEq

/-- The oracle for one run of `refresh_access_token`: the token POST outcome,
the discovery oracle, and the service-enable POST outcome. -/
structure World where
  tokenResult : HttpResult TokenBody
  discover : DiscoverWorld
  enableResult : HttpResult EnableLro

/-- `refresh_access_token` (lines 214-258): empty-token guard, credential
lookup, token POST (`raise_for_status` raises on status >= 400, modelled as
`upstreamError`), `access_token` extraction (a falsy value raises
`protocolError`), project discovery, then either the API-enable call on a
truthy discovered project or the fallback to `DEFAULT_PROJECT_ID`.  Since
`enable_vertex_api` handles every failure internally, the `except` branch of
lines 251-253 is unreachable and the resolved project id is kept. -/
def refresh_access_token (w : World) (refresh_token : String) :
    Except RefreshError (String × String) × List Request :=
  if refresh_token = "" then (Except.error RefreshError.invalidArgument, [])
  else
    let _creds := extract_antigravity_credentials
    let tr0 := [Request.credLookup, Request.tokenPost]
    match w.tokenResult with
    | HttpResult.raise => (Except.error RefreshError.transportError, tr0)
    | HttpResult.resp status tokens =>
      if 400 ≤ status then
        (Except.error (RefreshError.upstreamError status), tr0)
      else if truthyS tokens.access_token then
        let accessToken := tokens.access_token.getD ""
        let disc := discover_project w.discover
        let tr1 := tr0 ++ disc.2
        if truthyS disc.1 then
          let projectId := disc.1.getD ""
          let _outcome := enable_vertex_api w.enableResult
          (Except.ok (accessToken, projectId), tr1 ++ [Request.enablePost projectId])
        else
          (Except.ok (accessToken, DEFAULT_PROJECT_ID), tr1)
      else
        (Except.error RefreshError.protocolError, tr0)

/-- The onboardUser bodies occurring in a request trace. -/
def onboardsOf (tr : List Request) : List OnboardBody :=
  tr.filterMap (fun r =>
    match r with
    | Request.onboardPost b => some b
    | _ => none)

/-- The number of poll GETs in a request trace. -/
def pollCount (tr : List Request) : Nat :=
  (tr.filter (fun r =>
    match r with
    | Request.pollGet _ => true
    | _ => false)).length

/-- Example oracle: the LOAD call raises (transport failure or timeout) and
one environment hint is set. -/
def loadRaisesWorld : DiscoverWorld :=
  { envGoogleCloudProject := some "env-p"
    envGoogleCloudProjectId := none
    loadResult := HttpResult.raise
    onboardResult := HttpResult.raise
    pollResult := fun _ => HttpResult.raise }

/-- Example oracle: a fully successful token refresh whose discovery hits a
LOAD timeout with no environment hint set. -/
def okWorld : World :=
  { tokenResult := HttpResult.resp 200 { access_token := some "tok-1" }
    discover :=
      { envGoogleCloudProject := none
        envGoogleCloudProjectId := none
        loadResult := HttpResult.raise
        onboardResult := HttpResult.raise
        pollResult := fun _ => HttpResult.raise }
    enableResult := HttpResult.resp 200 { done := true } }

/-- Example oracle: LOAD returns 200 with `cloudaicompanionProject` equal to
the plain string `"proj-a"` but with no `currentTier`; the onboard call that
follows fails with a 500. -/
def projNoTierWorld : DiscoverWorld :=
  { envGoogleCloudProject := none
    envGoogleCloudProjectId := none
    loadResult := HttpResult.resp 200
      { currentTier := false, proj := ProjField.pstr "proj-a", allowedTiers := [] }
    onboardResult := HttpResult.resp 500
      { done := true, name := none, responseProjectId := none }
    pollResult := fun _ => HttpResult.raise }

/-- Example oracle: LOAD returns 200 with both `currentTier` and the plain
string project `"proj-a"`. -/
def projWithTierWorld : DiscoverWorld :=
  { envGoogleCloudProject := none
    envGoogleCloudProjectId := none
    loadResult := HttpResult.resp 200
      { currentTier := true, proj := ProjField.pstr "proj-a", allowedTiers := [] }
    onboardResult := HttpResult.resp 500
      { done := true, name := none, responseProjectId := none }
    pollResult := fun _ => HttpResult.raise }

/-- Example oracle: LOAD returns 200 with `currentTier` set but no project
reference, and no environment hint is set; the onboard call fails with 500. -/
def tierNoProjWorld : DiscoverWorld :=
  { envGoogleCloudProject := none
    envGoogleCloudProjectId := none
    loadResult := HttpResult.resp 200
      { currentTier := true, proj := ProjField.absent, allowedTiers := [] }
    onboardResult := HttpResult.resp 500
      { done := true, name := none, responseProjectId := none }
    pollResult := fun _ => HttpResult.raise }

/-- Example oracle: LOAD returns 200 with `currentTier` set and no project
reference, with the environment hint `"env-proj"` set. -/
def tierNoProjEnvWorld : DiscoverWorld :=
  { envGoogleCloudProject := some "env-proj"
    envGoogleCloudProjectId := none
    loadResult := HttpResult.resp 200
      { currentTier := true, proj := ProjField.absent, allowedTiers := [] }
    onboardResult := HttpResult.resp 500
      { done := true, name := none, responseProjectId := none }
    pollResult := fun _ => HttpResult.raise }

/-- Example oracle: LOAD indicates not-yet-provisioned with a single allowed
tier that is not flagged default. -/
def nonDefaultTierWorld : DiscoverWorld :=
  { envGoogleCloudProject := none
    envGoogleCloudProjectId := none
    loadResult := HttpResult.resp 200
      { currentTier := false, proj := ProjField.absent,
        allowedTiers := [{ isDefault := false, id := some "paid-tier" }] }
    onboardResult := HttpResult.resp 500
      { done := true, name := none, responseProjectId := none }
    pollResult := fun _ => HttpResult.raise }

/-- Example oracle: LOAD indicates not-yet-provisioned with
`allowedTiers = [free-tier (default), paid-tier]`. -/
def twoTierWorld : DiscoverWorld :=
  { envGoogleCloudProject := none
    envGoogleCloudProjectId := none
    loadResult := HttpResult.resp 200
      { currentTier := false, proj := ProjField.absent,
        allowedTiers := [{ isDefault := true, id := some "free-tier" },
                         { isDefault := false, id := some "paid-tier" }] }
    onboardResult := HttpResult.resp 500
      { done := true, name := none, responseProjectId := none }
    pollResult := fun _ => HttpResult.raise }

/-- Example oracle: onboarding returns an unfinished operation with a name,
and every poll round answers with a 404, so the loop runs to its ceiling. -/
def pollCeilingWorld : DiscoverWorld :=
  { envGoogleCloudProject := none
    envGoogleCloudProjectId := none
    loadResult := HttpResult.resp 200
      { currentTier := false, proj := ProjField.absent, allowedTiers := [] }
    onboardResult := HttpResult.resp 200
      { done := false, name := some "op-1", responseProjectId := none }
    pollResult := fun _ => HttpResult.resp 404
      { done := true, name := none, responseProjectId := none } }

/-- Example oracle: discovery resolves `"proj-x"` from LOAD and the
service-enable call answers 403. -/
def enable403World : World :=
  { tokenResult := HttpResult.resp 200 { access_token := some "tok-3" }
    discover :=
      { envGoogleCloudProject := none
        envGoogleCloudProjectId := none
        loadResult := HttpResult.resp 200
          { currentTier := true, proj := ProjField.pstr "proj-x", allowedTiers := [] }
        onboardResult := HttpResult.raise
        pollResult := fun _ => HttpResult.raise }
    enableResult := HttpResult.resp 403 { done := false } }

/-- Example oracle: the LOAD call completes with a 500 status; the body it
carries (which even declares `currentTier`) is never parsed.  The onboard call
that follows fails with 500. -/
def load500World : DiscoverWorld :=
  { envGoogleCloudProject := none
    envGoogleCloudProjectId := none
    loadResult := HttpResult.resp 500
      { currentTier := true, proj := ProjField.pstr "ignored", allowedTiers := [] }
    onboardResult := HttpResult.resp 500
      { done := true, name := none, responseProjectId := none }
    pollResult := fun _ => HttpResult.raise }

theorem truthyS_some (s : String) (hs : s ≠ "") : truthyS (some s) = true := by
  simp [truthyS, hs]

theorem truthyS_none : truthyS none = false := rfl

theorem LoadData_empty_currentTier : LoadData.empty.currentTier = false := rfl

theorem LoadData_empty_allowedTiers : LoadData.empty.allowedTiers = [] := rfl

theorem truthyS_true_iff (o : Option String) :
    truthyS o = true ↔ ∃ s, o = some s ∧ s ≠ "" := by
  cases o with
  | none => simp [truthyS]
  | some s => simp [truthyS]

theorem tierIdOf_eq (allowed : List Tier) :
    tierIdOf allowed =
      match allowed.find? (fun t => t.isDefault) with
      | some t => orStr t.id "free-tier"
      | none => "legacy-tier" := by
  cases h : allowed.find? (fun t => t.isDefault) with
  | none => simp [tierIdOf, h]; decide
  | some t => simp [tierIdOf, h]

theorem onboardsOf_cons_load (h : Option String) (tr : List Request) :
    onboardsOf (Request.loadPost h :: tr) = onboardsOf tr := rfl

theorem onboardsOf_cons_poll (n : String) (tr : List Request) :
    onboardsOf (Request.pollGet n :: tr) = onboardsOf tr := rfl

theorem onboardsOf_cons_onboard (b : OnboardBody) (tr : List Request) :
    onboardsOf (Request.onboardPost b :: tr) = b :: onboardsOf tr := rfl

theorem pollLoop_onboardsOf (w : DiscoverWorld) :
    ∀ fuel round lro, onboardsOf (pollLoop w fuel round lro).2 = [] := by
  intro fuel
  induction fuel with
  | zero => intro round lro; rfl
  | succ n ih =>
    intro round lro
    simp only [pollLoop]
    split
    · rfl
    · split
      · rfl
      · cases hpr : w.pollResult round with
        | raise => rfl
        | resp s b => simp [onboardsOf_cons_poll, ih]

theorem pollLoop_trace_le (w : DiscoverWorld) :
    ∀ fuel round lro, (pollLoop w fuel round lro).2.length ≤ fuel := by
  intro fuel
  induction fuel with
  | zero => intro round lro; simp [pollLoop]
  | succ n ih =>
    intro round lro
    simp only [pollLoop]
    split
    · simp
    · split
      · simp
      · cases hpr : w.pollResult round with
        | raise => simp
        | resp s b =>
          have h := ih (round + 1) (if s = 200 then b else lro)
          simpa using Nat.succ_le_succ h

theorem pollLoop_all_non200 (w : DiscoverWorld)
    (hraise : ∀ r, w.pollResult r ≠ HttpResult.raise)
    (hok : ∀ r s b, w.pollResult r = HttpResult.resp s b → s ≠ 200) :
    ∀ fuel round lro, (pollLoop w fuel round lro).1 = Except.ok lro := by
  intro fuel
  induction fuel with
  | zero => intro round lro; rfl
  | succ n ih =>
    intro round lro
    simp only [pollLoop]
    split
    · rfl
    · split
      · rfl
      · cases hpr : w.pollResult round with
        | raise => exact absurd hpr (hraise round)
        | resp s b =>
          have hs : ¬(s = 200) := hok round s b hpr
          simp [hs, ih]

theorem pollLoop_full (w : DiscoverWorld)
    (hraise : ∀ r, w.pollResult r ≠ HttpResult.raise)
    (hok : ∀ r s b, w.pollResult r = HttpResult.resp s b → s ≠ 200) :
    ∀ fuel round lro, lro.done = false → truthyS lro.name = true →
      (pollLoop w fuel round lro).2.length = fuel := by
  intro fuel
  induction fuel with
  | zero => intro round lro _ _; rfl
  | succ n ih =>
    intro round lro hdone hname
    cases hpr : w.pollResult round with
    | raise => exact absurd hpr (hraise round)
    | resp s b =>
      have hs : ¬(s = 200) := hok round s b hpr
      simp [pollLoop, hdone, hname, hpr, hs, ih (round + 1) lro hdone hname]

theorem onboardsOf_nil : onboardsOf [] = [] := rfl

theorem onboardsOf_single_onboard (b : OnboardBody) :
    onboardsOf [Request.onboardPost b] = [b] := rfl

theorem onboardsOf_onboardPart (w : DiscoverWorld) (env : Option String)
    (data : LoadData) :
    onboardsOf (onboardPart w env data).2 = [mkOnboardBody env data.allowedTiers] := by
  simp only [onboardPart]
  cases honb : w.onboardResult with
  | raise => simp [onboardsOf_single_onboard]
  | resp status lro0 =>
    cases hp : (pollLoop w 24 0 lro0).1 with
    | error e =>
      by_cases h4 : 400 ≤ status
      · simp [h4, onboardsOf_single_onboard]
      · simp [h4, hp, onboardsOf_cons_onboard, pollLoop_onboardsOf]
    | ok lro =>
      by_cases h4 : 400 ≤ status
      · simp [h4, onboardsOf_single_onboard]
      · by_cases ht :
          truthyS (if truthyS lro.responseProjectId = true
                   then lro.responseProjectId else env) = true
        · simp [h4, hp, ht, onboardsOf_cons_onboard, pollLoop_onboardsOf]
        · simp [h4, hp, ht, onboardsOf_cons_onboard, pollLoop_onboardsOf]

/-- Claim C2: the Project Resolver catches every exception raised inside
LOAD/ONBOARD/POLL/EXTRACT — including a LOAD transport failure or timeout —
and returns the environment project hint if one is set, otherwise none. -/
theorem discover_project_never_raises (w : DiscoverWorld)
    (h : w.loadResult = HttpResult.raise ∨ (discoverTry w).1 = Except.error ()) :
    (discover_project w).1 = envProjectOf w := by
  rcases h with h | h
  · simp [discover_project, discoverTry, h]
  · simp [discover_project, h]

/-- Witness for C2: with the LOAD call raising and `GOOGLE_CLOUD_PROJECT` set
to `"env-p"`, discovery returns `"env-p"` without raising. -/
theorem discover_project_never_raises_w :
    (discover_project loadRaisesWorld).1 = some "env-p" :=
  (discover_project_never_raises loadRaisesWorld (Or.inl rfl)).trans rfl

/-- Claim C8: calling `refresh_access_token` with an empty refresh token fails
immediately with the invalid-argument error, before any credential lookup or
network request is made (the request trace is empty). -/
theorem refresh_empty_token_rejected (w : World) :
    (refresh_access_token w "").1 = Except.error RefreshError.invalidArgument ∧
    (refresh_access_token w "").2 = [] := by
  constructor <;> rfl

/-- Claim C1: every normal return of `refresh_access_token` carries a
non-empty `project_id`; whenever discovery yields no (truthy) project id, the
fixed build-time default project id is substituted. -/
theorem refresh_project_id_nonempty (w : World) (rt tok pid : String)
    (h : (refresh_access_token w rt).1 = Except.ok (tok, pid)) :
    pid ≠ "" ∧
      (truthyS (discover_project w.discover).1 = false →
        pid = DEFAULT_PROJECT_ID) := by
  by_cases hrt : rt = ""
  · simp [refresh_access_token, hrt] at h
  · cases htk : w.tokenResult with
    | raise => simp [refresh_access_token, hrt, htk] at h
    | resp status tokens =>
      by_cases h4 : 400 ≤ status
      · simp [refresh_access_token, hrt, htk, h4] at h
      · by_cases hacc : truthyS tokens.access_token = true
        · by_cases hd : truthyS (discover_project w.discover).1 = true
          · simp [refresh_access_token, hrt, htk, h4, hacc, hd] at h
            obtain ⟨h1, h2⟩ := h
            rcases (truthyS_true_iff _).mp hd with ⟨s, hsome, hne⟩
            constructor
            · rw [← h2, hsome]
              simpa using hne
            · intro hfalse
              rw [hd] at hfalse
              exact absurd hfalse (by simp)
          · simp [refresh_access_token, hrt, htk, h4, hacc, hd] at h
            obtain ⟨h1, h2⟩ := h
            constructor
            · rw [← h2]
              simp [DEFAULT_PROJECT_ID]
            · intro hfalse
              exact h2.symm
        · simp [refresh_access_token, hrt, htk, h4, hacc] at h

/-- Witness for C1: a fully successful refresh whose discovery fails entirely
returns the default project id, which is non-empty. -/
theorem refresh_project_id_nonempty_w :
    ("rising-fact-p41fc" : String) ≠ "" ∧
      (truthyS (discover_project okWorld.discover).1 = false →
        ("rising-fact-p41fc" : String) = DEFAULT_PROJECT_ID) :=
  refresh_project_id_nonempty okWorld "r" "tok-1" "rising-fact-p41fc" (by rfl)

/-- Claim C3 counterexample: a LOAD response carrying the plain-string project
`"proj-a"` but no `currentTier` does not make the resolver return `"proj-a"`,
and an ONBOARD request is issued. -/
theorem load_project_without_tier_counterexample :
    (discover_project projNoTierWorld).1 ≠ some "proj-a" ∧
    onboardsOf (discover_project projNoTierWorld).2 ≠ [] := by
  constructor
  · decide
  · decide

/-- Claim C3 (amended): for every LOAD response with status 200 that declares
`currentTier` and contains the project reference as a non-empty plain string,
the resolver returns that string and issues no ONBOARD request. -/
theorem load_project_with_tier (w : DiscoverWorld) (data : LoadData)
    (s : String)
    (hload : w.loadResult = HttpResult.resp 200 data)
    (hct : data.currentTier = true)
    (hproj : data.proj = ProjField.pstr s)
    (hs : s ≠ "") :
    (discover_project w).1 = some s ∧
    onboardsOf (discover_project w).2 = [] := by
  have ht := truthyS_some s hs
  simp [discover_project, discoverTry, hload, hct, hproj, hs, ht,
    onboardsOf_cons_load, onboardsOf_nil]

/-- Witness for the amended C3: with `currentTier` set and the plain string
`"proj-a"`, discovery returns `"proj-a"` and no onboard call is made. -/
theorem load_project_with_tier_w :
    (discover_project projWithTierWorld).1 = some "proj-a" ∧
    onboardsOf (discover_project projWithTierWorld).2 = [] :=
  load_project_with_tier projWithTierWorld
    { currentTier := true, proj := ProjField.pstr "proj-a", allowedTiers := [] }
    "proj-a" rfl rfl rfl (by decide)

/-- Claim C4 counterexample: with `currentTier` declared, no project reference
and no environment hint, the resolver does not stop: it issues an ONBOARD
request (with the fallback tier) instead of terminating without one. -/
theorem provisioned_no_project_counterexample :
    (discover_project tierNoProjWorld).1 = none ∧
    onboardsOf (discover_project tierNoProjWorld).2 ≠ [] := by
  constructor
  · decide
  · decide

/-- Claim C4 (amended): if LOAD (status 200) declares `currentTier` but no
project reference, then: with a truthy environment hint the resolver returns
the hint and issues no ONBOARD request; with no (truthy) hint it does not
terminate there but proceeds to issue an ONBOARD request. -/
theorem provisioned_no_project (w : DiscoverWorld) (data : LoadData)
    (hload : w.loadResult = HttpResult.resp 200 data)
    (hct : data.currentTier = true)
    (hproj : data.proj = ProjField.absent) :
    (truthyS (envProjectOf w) = true →
      (discover_project w).1 = envProjectOf w ∧
      onboardsOf (discover_project w).2 = []) ∧
    (truthyS (envProjectOf w) = false →
      onboardsOf (discover_project w).2 =
        [mkOnboardBody (envProjectOf w) data.allowedTiers]) := by
  constructor
  · intro henv
    simp [discover_project, discoverTry, hload, hct, hproj, henv,
      onboardsOf_cons_load, onboardsOf_nil]
  · intro henv
    have hob := onboardsOf_onboardPart w (envProjectOf w) data
    simp only [discover_project, discoverTry, hload]
    cases hop : (onboardPart w (envProjectOf w) data).1 with
    | ok v => simp [hct, hproj, henv, hop, truthyS_none, onboardsOf_cons_load, hob]
    | error e => simp [hct, hproj, henv, hop, truthyS_none, onboardsOf_cons_load, hob]

/-- Witness for the amended C4: with the hint `"env-proj"` set the resolver
returns it; with no hint it issues the fallback-tier ONBOARD request. -/
theorem provisioned_no_project_w :
    (discover_project tierNoProjEnvWorld).1 = some "env-proj" ∧
    onboardsOf (discover_project tierNoProjWorld).2 =
      [{ tierId := "legacy-tier", cloudaicompanionProject := none }] := by
  constructor
  · exact ((provisioned_no_project tierNoProjEnvWorld
      { currentTier := true, proj := ProjField.absent, allowedTiers := [] }
      rfl rfl rfl).1 (by decide)).1.trans (by decide)
  · exact ((provisioned_no_project tierNoProjWorld
      { currentTier := true, proj := ProjField.absent, allowedTiers := [] }
      rfl rfl rfl).2 (by decide)).trans (by decide)

/-- Claim C5 counterexample: with `allowedTiers` holding a single tier that is
not flagged default, the ONBOARD call carries `tierId = "legacy-tier"`, not
the first tier of the list (`"paid-tier"`). -/
theorem tier_selection_counterexample :
    (onboardsOf (discover_project nonDefaultTierWorld).2).map OnboardBody.tierId
      = ["legacy-tier"] ∧ ("legacy-tier" : String) ≠ "paid-tier" := by
  constructor
  · decide
  · decide

/-- Claim C5 (amended): for every not-yet-provisioned LOAD outcome the ONBOARD
request carries the id of the first tier flagged `isDefault`; if no tier is
flagged default — also when the list is empty — the hardcoded fallback tier
id `"legacy-tier"` is used (and a chosen tier with a missing or empty id falls
back to `"free-tier"`).  In particular the example list
`[free-tier (default), paid-tier]` yields `tierId = "free-tier"`. -/
theorem tier_selection (w : DiscoverWorld) (data : LoadData)
    (hload : w.loadResult = HttpResult.resp 200 data)
    (hct : data.currentTier = false) :
    (onboardsOf (discover_project w).2).map OnboardBody.tierId =
      [match data.allowedTiers.find? (fun t => t.isDefault) with
       | some t => orStr t.id "free-tier"
       | none => "legacy-tier"] := by
  have hob := onboardsOf_onboardPart w (envProjectOf w) data
  have hsel := tierIdOf_eq data.allowedTiers
  simp only [discover_project, discoverTry, hload]
  cases hop : (onboardPart w (envProjectOf w) data).1 with
  | ok v => simp [hct, hop, onboardsOf_cons_load, hob, mkOnboardBody, hsel]
  | error e => simp [hct, hop, onboardsOf_cons_load, hob, mkOnboardBody, hsel]

/-- Witness for the amended C5: the example tier list from the claim makes the
onboard request carry `tierId = "free-tier"`. -/
theorem tier_selection_w :
    (onboardsOf (discover_project twoTierWorld).2).map OnboardBody.tierId =
      ["free-tier"] :=
  (tier_selection twoTierWorld
    { currentTier := false, proj := ProjField.absent,
      allowedTiers := [{ isDefault := true, id := some "free-tier" },
                       { isDefault := false, id := some "paid-tier" }] }
    rfl rfl).trans (by decide)

theorem pollCount_nil : pollCount [] = 0 := rfl

theorem pollCount_cons_load (h : Option String) (tr : List Request) :
    pollCount (Request.loadPost h :: tr) = pollCount tr := rfl

theorem pollCount_cons_onboard (b : OnboardBody) (tr : List Request) :
    pollCount (Request.onboardPost b :: tr) = pollCount tr := rfl

theorem pollCount_cons_poll (n : String) (tr : List Request) :
    pollCount (Request.pollGet n :: tr) = pollCount tr + 1 := by
  simp [pollCount, List.filter]

theorem pollCount_pollLoop (w : DiscoverWorld) :
    ∀ fuel round lro,
      pollCount (pollLoop w fuel round lro).2 = (pollLoop w fuel round lro).2.length := by
  intro fuel
  induction fuel with
  | zero => intro round lro; rfl
  | succ n ih =>
    intro round lro
    simp only [pollLoop]
    split
    · rfl
    · split
      · rfl
      · cases hpr : w.pollResult round with
        | raise => rfl
        | resp s b => simp [pollCount_cons_poll, ih]

/-- Claim C6: in the POLL state with an undone, named LRO, the resolver
re-fetches the operation at most 24 times (and exactly 24 when every poll
answers non-200, so each non-200 response is tolerated silently, keeping the
previous LRO state, and never aborts the loop); once polling ends, resolution
falls back to the LRO response project id if present, otherwise to the
environment hint (or none). -/
theorem poll_bounded (w : DiscoverWorld) (data : LoadData) (lro0 : LRO)
    (hload : w.loadResult = HttpResult.resp 200 data)
    (hct : data.currentTier = false)
    (honb : w.onboardResult = HttpResult.resp 200 lro0)
    (hraise : ∀ r, w.pollResult r ≠ HttpResult.raise)
    (hok : ∀ r s b, w.pollResult r = HttpResult.resp s b → s ≠ 200) :
    pollCount (discover_project w).2 ≤ 24 ∧
    (lro0.done = false → truthyS lro0.name = true →
      pollCount (discover_project w).2 = 24) ∧
    (discover_project w).1 =
      (if truthyS lro0.responseProjectId = true then lro0.responseProjectId
       else envProjectOf w) := by
  have hkeep := pollLoop_all_non200 w hraise hok 24 0 lro0
  have hpart : onboardPart w (envProjectOf w) data =
      (Except.ok (if truthyS lro0.responseProjectId = true
                  then lro0.responseProjectId else envProjectOf w),
       Request.onboardPost (mkOnboardBody (envProjectOf w) data.allowedTiers)
         :: (pollLoop w 24 0 lro0).2) := by
    simp only [onboardPart, honb]
    rw [if_neg (by omega : ¬(400 ≤ 200))]
    by_cases hpid : truthyS lro0.responseProjectId = true
    · simp [hkeep, hpid]
    · by_cases henv : truthyS (envProjectOf w) = true
      · simp [hkeep, hpid, henv]
      · simp [hkeep, hpid, henv]
  have hdisc : discover_project w =
      ((if truthyS lro0.responseProjectId = true then lro0.responseProjectId
        else envProjectOf w),
       Request.loadPost (envProjectOf w)
         :: Request.onboardPost (mkOnboardBody (envProjectOf w) data.allowedTiers)
         :: (pollLoop w 24 0 lro0).2) := by
    simp [discover_project, discoverTry, hload, hct, hpart]
  rw [hdisc]
  refine ⟨?_, ?_, rfl⟩
  · simp only [pollCount_cons_load, pollCount_cons_onboard, pollCount_pollLoop]
    exact pollLoop_trace_le w 24 0 lro0
  · intro hdone hname
    simp only [pollCount_cons_load, pollCount_cons_onboard, pollCount_pollLoop]
    exact pollLoop_full w hraise hok 24 0 lro0 hdone hname

/-- Witness for C6: with the onboarding operation never finishing and every
poll answering 404, exactly 24 poll requests are made and discovery falls back
to the (unset) environment hint. -/
theorem poll_bounded_w :
    pollCount (discover_project pollCeilingWorld).2 = 24 ∧
    (discover_project pollCeilingWorld).1 = none := by
  have h := poll_bounded pollCeilingWorld
    { currentTier := false, proj := ProjField.absent, allowedTiers := [] }
    { done := false, name := some "op-1", responseProjectId := none }
    rfl rfl rfl
    (fun r => by
      rw [show pollCeilingWorld.pollResult r = HttpResult.resp 404
        { done := true, name := none, responseProjectId := none } from rfl]
      decide)
    (fun r s b hb => by
      rw [show pollCeilingWorld.pollResult r = HttpResult.resp 404
        { done := true, name := none, responseProjectId := none } from rfl] at hb
      injection hb with h1 h2
      omega)
  exact ⟨h.2.1 rfl (by decide), h.2.2.trans (by decide)⟩

/-- Claim C7: under a 2xx token-endpoint response, a present non-empty
`access_token` appears verbatim in the output pair, while an absent or empty
`access_token` raises the protocol error to the caller. -/
theorem token_refresh_result (w : World) (rt : String) (status : Nat)
    (tokens : TokenBody) (hrt : rt ≠ "")
    (htok : w.tokenResult = HttpResult.resp status tokens)
    (h2a : 200 ≤ status) (h2b : status < 300) :
    (∀ s, tokens.access_token = some s → s ≠ "" →
      ∃ pid, (refresh_access_token w rt).1 = Except.ok (s, pid)) ∧
    (truthyS tokens.access_token = false →
      (refresh_access_token w rt).1 = Except.error RefreshError.protocolError) := by
  have h4 : ¬(400 ≤ status) := by omega
  constructor
  · intro s hsome hne
    have hacc : truthyS tokens.access_token = true := by
      rw [hsome]
      exact truthyS_some s hne
    by_cases hd : truthyS (discover_project w.discover).1 = true
    · exact ⟨(discover_project w.discover).1.getD "",
        by simp [refresh_access_token, hrt, htok, h4, hacc, hd, hsome,
          truthyS_some s hne]⟩
    · exact ⟨DEFAULT_PROJECT_ID,
        by simp [refresh_access_token, hrt, htok, h4, hacc, hd, hsome,
          truthyS_some s hne]⟩
  · intro hacc
    simp [refresh_access_token, hrt, htok, h4, hacc]

/-- Witness for C7: a 200 token response with `access_token = "tok-1"` puts
exactly `"tok-1"` in the output. -/
theorem token_refresh_result_w :
    ∃ pid, (refresh_access_token okWorld "r").1 = Except.ok ("tok-1", pid) :=
  (token_refresh_result okWorld "r" 200 { access_token := some "tok-1" }
    (by decide) rfl (by omega) (by omega)).1 "tok-1" rfl (by decide)

/-- Claim C9: a 403 on the service-enable call is recorded as a
permission-denied condition, `enable_vertex_api` returns normally, and the
final `project_id` of the orchestrator stays the resolved one — no fallback to
the default project id is triggered by the 403 alone. -/
theorem enable_403_keeps_project (w : World) (rt s p : String)
    (hrt : rt ≠ "")
    (htok : w.tokenResult = HttpResult.resp 200 { access_token := some s })
    (hs : s ≠ "")
    (hdisc : (discover_project w.discover).1 = some p)
    (hp : p ≠ "")
    (b : EnableLro)
    (henable : w.enableResult = HttpResult.resp 403 b) :
    enable_vertex_api w.enableResult = EnableOutcome.permissionDenied ∧
    (refresh_access_token w rt).1 = Except.ok (s, p) := by
  constructor
  · simp [enable_vertex_api, henable]
  · have hacc := truthyS_some s hs
    have hd : truthyS (discover_project w.discover).1 = true := by
      rw [hdisc]
      exact truthyS_some p hp
    simp [refresh_access_token, hrt, htok, hacc, hd, hdisc, truthyS_some p hp]

/-- Witness for C9: discovery resolves `"proj-x"`, the enable call answers
403, and the refresh still returns `("tok-3", "proj-x")`. -/
theorem enable_403_keeps_project_w :
    enable_vertex_api enable403World.enableResult = EnableOutcome.permissionDenied ∧
    (refresh_access_token enable403World "r").1 = Except.ok ("tok-3", "proj-x") :=
  enable_403_keeps_project enable403World "r" "tok-3" "proj-x" (by decide) rfl
    (by decide) (by decide) (by decide) { done := false } rfl

/-- Claim C10: a LOAD call that completes with a non-200 status is treated as
an empty status record: the resolver does not stop with the environment hint
but proceeds to issue exactly one ONBOARD request, carrying the hardcoded
fallback tier id `"legacy-tier"`. -/
theorem load_non200_onboards (w : DiscoverWorld) (status : Nat)
    (body : LoadData)
    (hload : w.loadResult = HttpResult.resp status body)
    (hstatus : status ≠ 200) :
    onboardsOf (discover_project w).2 = [mkOnboardBody (envProjectOf w) []] ∧
    (mkOnboardBody (envProjectOf w) []).tierId = "legacy-tier" := by
  constructor
  · have hob := onboardsOf_onboardPart w (envProjectOf w) LoadData.empty
    simp only [discover_project, discoverTry, hload]
    cases hop : (onboardPart w (envProjectOf w) LoadData.empty).1 with
    | ok v =>
      simp [hstatus, hop, onboardsOf_cons_load, hob,
        LoadData_empty_currentTier, LoadData_empty_allowedTiers]
    | error e =>
      simp [hstatus, hop, onboardsOf_cons_load, hob,
        LoadData_empty_currentTier, LoadData_empty_allowedTiers]
  · show tierIdOf [] = "legacy-tier"
    decide

/-- Witness for C10: a 500 LOAD response (whose body is ignored) leads to an
ONBOARD request with `tierId = "legacy-tier"`. -/
theorem load_non200_onboards_w :
    onboardsOf (discover_project load500World).2 =
      [{ tierId := "legacy-tier", cloudaicompanionProject := none }] :=
  (load_non200_onboards load500World 500
    { currentTier := true, proj := ProjField.pstr "ignored", allowedTiers := [] }
    rfl (by omega)).1.trans (by decide)

end GeminiCliAuth
